import Mathlib

/-!
# Shallow embedding of the pastebin-lite server (`src/server/index.js`)

This file embeds the paste lifecycle of the Express server as pure Lean
functions and proves the specification's claims about it.

Modelling decisions (all relative to `src/server/index.js`):

* All operations on a paste touch exactly one storage key, `paste:<id>`;
  the store is therefore modelled as the value at that single key,
  `Store := Option Stored`.  `Stored.good p` is a record whose serialized
  payload parses back to `p`; `Stored.bad` is a payload that exists but
  fails to deserialize (the `JSON.parse` failure branch of `getPaste`).
* Backend reads and writes are modelled as reliable (the in-memory path,
  where `Map.get`/`Map.set` never throw).  `deletePaste` keeps its retry
  loop (`retries = 3`), with per-attempt backend outcomes supplied by an
  oracle `ok : Nat → Bool` (`ok i = true` means the i-th `DEL` attempt
  succeeds); the fetch handlers thread that oracle to every
  `deletePaste` call site and, as in the source, ignore its boolean
  result.
* JavaScript dynamic values reaching the create handler are modelled by
  `JsVal`; numbers distinguish `NaN`, `±Infinity`, integers and
  non-integer finite values, which is exactly the granularity the
  `typeof`/`Number.isInteger`/range checks observe.
* Timestamps are `Nat` milliseconds.  The `toISOString` conversions in
  the responses are dropped; the JS truthiness tests guarding them
  (`paste.expires_at ? … : null`, `paste.created_at ? … : null`) are
  kept (`respExpires`, `respCreated`).
* `jsTrim` (drop whitespace at both ends) models the JS `trim`, and
  `replaceAllChar` models a global single-character regex replace;
  both are written over character lists so that concrete instances
  reduce inside the kernel.  `String.length` stands in for the JS
  `length` (they agree on all inputs used by the theorems of this
  file).
-/

namespace PastebinLite

/-- A JavaScript number, at the granularity observed by the validation
code: `NaN`, `Infinity`, `-Infinity`, an integer value, or a finite
non-integer value (for which `Number.isInteger` is `false`). -/
inductive JsNum where
  | nan : JsNum
  | inf : JsNum
  | neginf : JsNum
  | intVal (i : Int) : JsNum
  | fracVal : JsNum
deriving DecidableEq, Repr

/-- A JavaScript value as seen by the request-body validation code. -/
inductive JsVal where
  | undef : JsVal
  | jnull : JsVal
  | jstr (s : String) : JsVal
  | jnum (n : JsNum) : JsVal
  | jother : JsVal
deriving DecidableEq, Repr

/-- The JS `String.prototype.trim`: whitespace removed from both
ends. -/
def jsTrim (s : String) : String :=
  String.mk
    (((s.data.dropWhile Char.isWhitespace).reverse.dropWhile
        Char.isWhitespace).reverse)

/-- A global single-character regex replace,
`s.replace(/c/g, r)`. -/
def replaceAllChar (s : String) (c : Char) (r : String) : String :=
  String.mk (s.data.flatMap (fun d => if d = c then r.data else [d]))

/-- JavaScript truthiness of a `JsVal` (used by `ttl_seconds ? … : null`
and `max_views || null` in the create handler). -/
def jsTruthy : JsVal → Bool
  | .undef => false
  | .jnull => false
  | .jstr s => decide (s ≠ "")
  | .jnum .nan => false
  | .jnum (.intVal i) => decide (i ≠ 0)
  | .jnum _ => true
  | .jother => true

/-- The persisted paste record, with the field names and order of the
object literal built in the create handler (`src/server/index.js`,
`pasteData`). -/
structure Paste where
  content : String
  created_at : Nat
  expires_at : Option Nat
  max_views : Option Int
  remaining_views : Option Int
  view_count : Nat
deriving DecidableEq, Repr

/-- A stored payload at the key `paste:<id>`: either it deserializes to
a `Paste` (`good`) or `JSON.parse` fails on it (`bad`). -/
inductive Stored where
  | good (p : Paste) : Stored
  | bad : Stored
deriving DecidableEq, Repr

/-- The storage state at one fixed identifier's key. -/
abbrev Store := Option Stored

/-- `savePaste`: serializes and overwrites the record (backend write
modelled reliable, as on the in-memory path). -/
def savePaste (p : Paste) (_s : Store) : Store :=
  some (Stored.good p)

/-- The retry loop of `deletePaste`: `fuel` attempts remain, the current
attempt has index `i`; `ok i` tells whether the backend `DEL` of attempt
`i` succeeds.  On success return `true` with the key removed; when the
last attempt (`i === retries - 1`) fails return `false` leaving the
store as is. -/
def deletePasteGo (ok : Nat → Bool) : Nat → Nat → Store → Bool × Store
  | 0, _, s => (false, s)
  | fuel + 1, i, s =>
    if ok i then (true, none)
    else if fuel = 0 then (false, s)
    else deletePasteGo ok fuel (i + 1) s

/-- `deletePaste(id, retries = 3)`: up to 3 backend delete attempts;
reports failure by returning `false` after the retries are exhausted. -/
def deletePaste (ok : Nat → Bool) (s : Store) : Bool × Store :=
  deletePasteGo ok 3 0 s

/-- `getPaste`: loads and deserializes the stored payload.  A missing
key yields `none`; a payload that fails to parse is treated as
corruption: `deletePaste` is called and `null` is returned (its result,
as in the source, is ignored). -/
def getPaste (ok : Nat → Bool) : Store → Option Paste × Store
  | none => (none, none)
  | some (Stored.good p) => (some p, some (Stored.good p))
  | some Stored.bad => (none, (deletePaste ok (some Stored.bad)).2)

/-- Result of `decrementViewsAtomic`: `{success: true, paste, deleted?}`
or `{success: false, reason: 'view_limit_exceeded'}`. -/
inductive DecResult where
  | success (paste : Paste) (deleted : Bool) : DecResult
  | failure : DecResult
deriving DecidableEq, Repr

/-- `decrementViewsAtomic(id, paste)`: unlimited records pass through
unchanged; an already-exhausted record (`remaining_views <= 0`) is
deleted with `success: false`; otherwise `remaining_views` is
decremented, and the record is deleted (reaching 0) or saved. -/
def decrementViewsAtomic (ok : Nat → Bool) (p : Paste) (s : Store) :
    DecResult × Store :=
  match p.remaining_views with
  | none => (DecResult.success p false, s)
  | some v =>
    if v ≤ 0 then
      (DecResult.failure, (deletePaste ok s).2)
    else
      let p2 := { p with remaining_views := some (v - 1) }
      if v - 1 ≤ 0 then
        (DecResult.success p2 true, (deletePaste ok s).2)
      else
        (DecResult.success p2 false, savePaste p2 s)

/-- Response of `GET /api/pastes/:id`: the paste body with
`remaining_views` and `expires_at`, or a 404. -/
inductive FetchResult where
  | ok (content : String) (remaining : Option Int) (expiresAt : Option Nat) :
      FetchResult
  | notFound : FetchResult
deriving DecidableEq, Repr

/-- `paste.expires_at ? new Date(paste.expires_at).toISOString() : null`
with the ISO conversion dropped: JS truthiness keeps `0` out. -/
def respExpires : Option Nat → Option Nat
  | none => none
  | some v => if v = 0 then none else some v

/-- `paste.created_at ? new Date(paste.created_at).toISOString() : null`
with the ISO conversion dropped. -/
def respCreated (c : Nat) : Option Nat :=
  if c = 0 then none else some c

/-- The identifier guard shared by the fetch handlers: empty or
over-length (`> 100`) identifiers are rejected as not found. -/
def badId (id : String) : Bool :=
  decide (id.length = 0) || decide (100 < id.length)

/-- The tail of the counted-fetch handler after the expiry check: the
atomic decrement, the `view_count` bump, the conditional save
(`if (!result.deleted)`), and the 200 response. -/
def fetchCountedDecrement (ok : Nat → Bool) (paste : Paste) (s : Store) :
    FetchResult × Store :=
  match decrementViewsAtomic ok paste s with
  | (DecResult.failure, s2) => (FetchResult.notFound, s2)
  | (DecResult.success p2 deleted, s2) =>
    let p3 := { p2 with view_count := p2.view_count + 1 }
    let s3 := if deleted then s2 else savePaste p3 s2
    (FetchResult.ok p3.content p3.remaining_views (respExpires p3.expires_at),
      s3)

/-- The counted-fetch handler from the point where the record has been
loaded: expiry check (`now >= expires_at`, inclusive) deleting on
expiry, then the decrement tail. -/
def fetchCountedAfterLoad (ok : Nat → Bool) (now : Nat) (paste : Paste)
    (s : Store) : FetchResult × Store :=
  match paste.expires_at with
  | some e =>
    if e ≤ now then (FetchResult.notFound, (deletePaste ok s).2)
    else fetchCountedDecrement ok paste s
  | none => fetchCountedDecrement ok paste s

/-- `GET /api/pastes/:id` (FetchCounted): identifier guard, load,
expiry check, atomic decrement, `view_count` bump, response. -/
def fetchCounted (ok : Nat → Bool) (id : String) (now : Nat) (s : Store) :
    FetchResult × Store :=
  if badId id then (FetchResult.notFound, s)
  else
    match getPaste ok s with
    | (none, s1) => (FetchResult.notFound, s1)
    | (some paste, s1) => fetchCountedAfterLoad ok now paste s1

/-- Response of `GET /api/pastes/:id/metadata`, or a 404. -/
inductive MetaResult where
  | ok (content : String) (remaining : Option Int) (expiresAt : Option Nat)
      (createdAt : Option Nat) : MetaResult
  | notFound : MetaResult
deriving DecidableEq, Repr

/-- The `escapeHtml` helper of the metadata handler: five global
single-character replacements, ampersand first. -/
def escapeHtml (t : String) : String :=
  replaceAllChar
    (replaceAllChar
      (replaceAllChar (replaceAllChar (replaceAllChar t '&' "&amp;") '<' "&lt;")
        '>' "&gt;")
      '\"' "&quot;")
    '\x27' "&#039;"

/-- The tail of the metadata handler after the expiry check: the
exhaustion check (`remaining_views !== null && remaining_views <= 0`
deletes and 404s) and the 200 response carrying the HTML-escaped
content. -/
def fetchMetadataView (ok : Nat → Bool) (paste : Paste) (s : Store) :
    MetaResult × Store :=
  let okResp :=
    (MetaResult.ok (escapeHtml paste.content) paste.remaining_views
        (respExpires paste.expires_at) (respCreated paste.created_at), s)
  match paste.remaining_views with
  | some v =>
    if v ≤ 0 then (MetaResult.notFound, (deletePaste ok s).2) else okResp
  | none => okResp

/-- `GET /api/pastes/:id/metadata` (FetchMetadata): identifier guard,
load, expiry check (inclusive, deleting on expiry), exhaustion check,
pure-read response. -/
def fetchMetadata (ok : Nat → Bool) (id : String) (now : Nat) (s : Store) :
    MetaResult × Store :=
  if badId id then (MetaResult.notFound, s)
  else
    match getPaste ok s with
    | (none, s1) => (MetaResult.notFound, s1)
    | (some paste, s1) =>
      match paste.expires_at with
      | some e =>
        if e ≤ now then (MetaResult.notFound, (deletePaste ok s1).2)
        else fetchMetadataView ok paste s1
      | none => fetchMetadataView ok paste s1

/-- Outcome of `POST /api/pastes`: a 400 validation error with its
message, or a 201 with the record that was persisted. -/
inductive CreateOutcome where
  | validationError (msg : String) : CreateOutcome
  | created (record : Paste) : CreateOutcome
deriving DecidableEq, Repr

/-- The `ttl_seconds` validation chain of the create handler. -/
def checkTtl : JsVal → Option String
  | .undef => none
  | .jnull => none
  | .jnum (.intVal i) =>
    if i < 1 then some "ttl_seconds must be >= 1"
    else if 31536000 < i then some "ttl_seconds cannot exceed 1 year"
    else none
  | .jnum _ => some "ttl_seconds must be an integer"
  | _ => some "ttl_seconds must be a number"

/-- The `max_views` validation chain of the create handler. -/
def checkMaxViews : JsVal → Option String
  | .undef => none
  | .jnull => none
  | .jnum (.intVal i) =>
    if i < 1 then some "max_views must be >= 1"
    else if 1000000 < i then some "max_views cannot exceed 1,000,000"
    else none
  | .jnum _ => some "max_views must be an integer"
  | _ => some "max_views must be a number"

/-- `expires_at: ttl_seconds ? createdAt + (ttl_seconds * 1000) : null`.
On every path that reaches it, `ttl_seconds` has already passed
validation, so a truthy value is an integer in `[1, 31536000]`. -/
def expiresOf (ttl : JsVal) (createdAt : Nat) : Option Nat :=
  if jsTruthy ttl then
    match ttl with
    | .jnum (.intVal i) => some (createdAt + i.toNat * 1000)
    | _ => none
  else none

/-- `max_views || null` (also used for `remaining_views`). -/
def viewsOf (maxv : JsVal) : Option Int :=
  if jsTruthy maxv then
    match maxv with
    | .jnum (.intVal i) => some i
    | _ => none
  else none

/-- `POST /api/pastes` (Create): the validation chain in source order,
then the `pasteData` record that is persisted under the fresh
identifier. -/
def createPaste (content ttl maxv : JsVal) (now : Nat) : CreateOutcome :=
  match content with
  | .undef => .validationError "content is required"
  | .jnull => .validationError "content is required"
  | .jstr s =>
    if jsTrim s = "" then .validationError "content cannot be empty"
    else if 10485760 < s.length then
      .validationError "content exceeds maximum size of 10MB"
    else
      match checkTtl ttl with
      | some msg => .validationError msg
      | none =>
        match checkMaxViews maxv with
        | some msg => .validationError msg
        | none =>
          .created
            { content := s
              created_at := now
              expires_at := expiresOf ttl now
              max_views := viewsOf maxv
              remaining_views := viewsOf maxv
              view_count := 0 }
  | _ => .validationError "content must be a string"

/-- The field names of the JSON body sent on a successful creation:
`res.status(201).json({ id, url })`. -/
def createResponseFields : List String := ["id", "url"]

/-- `parseInt(s, 10)`: skip leading whitespace, optional sign, then the
maximal digit prefix; `none` stands for `NaN` (no digits). -/
def parseIntJS (s : String) : Option Int :=
  let cs := s.toList.dropWhile Char.isWhitespace
  let signed : Int × List Char :=
    match cs with
    | '-' :: rest => (-1, rest)
    | '+' :: rest => (1, rest)
    | _ => (1, cs)
  let digits := signed.2.takeWhile Char.isDigit
  if digits.isEmpty then none
  else some (signed.1 * (digits.foldl (fun a c => a * 10 + (c.toNat - 48)) 0 : Nat))

/-- `getCurrentTime(req)` (the Clock Provider): in test mode with a
truthy `x-test-now-ms` header, a parsed non-negative integer override is
used; `NaN` or negative parses fall back to `Date.now()` (`wall`). -/
def getCurrentTime (testMode : Bool) (hdr : Option String) (wall : Nat) : Nat :=
  match testMode, hdr with
  | true, some h =>
    if h = "" then wall
    else
      match parseIntJS h with
      | none => wall
      | some v => if v < 0 then wall else v.toNat
  | _, _ => wall

/-- A backend on which every delete attempt succeeds (normal
operation). -/
def allOk : Nat → Bool := fun _ => true

/-- A backend on which every delete attempt fails (persistent backend
fault). -/
def allFail : Nat → Bool := fun _ => false

/-- `k` sequential counted fetches of the same identifier. -/
def runCounted (ok : Nat → Bool) (id : String) (now : Nat) :
    Nat → Store → Store
  | 0, s => s
  | k + 1, s => (fetchCounted ok id now (runCounted ok id now k s)).2

/-- Injection of an optional integer into the request values used for
`ttl_seconds` / `max_views` (absent is sent as JSON `null`). -/
def jsOptInt : Option Int → JsVal
  | none => JsVal.jnull
  | some i => JsVal.jnum (JsNum.intVal i)

/-- Validity of an optional integer parameter: absent, or an integer in
`[1, bound]` (mirrors the `checkTtl` / `checkMaxViews` chains). -/
def validOptInt (v : JsVal) (bound : Int) : Prop :=
  match v with
  | .undef => True
  | .jnull => True
  | .jnum (.intVal i) => 1 ≤ i ∧ i ≤ bound
  | _ => False

/-- Validity of a creation request: the conjunction of all checks the
create handler performs before persisting. -/
def validCreate (content ttl maxv : JsVal) : Prop :=
  match content with
  | .jstr s =>
    jsTrim s ≠ "" ∧ s.length ≤ 10485760 ∧
      validOptInt ttl 31536000 ∧ validOptInt maxv 1000000
  | _ => False

/-- The content string carried by a counted-fetch response, if any. -/
def FetchResult.contentOf : FetchResult → Option String
  | .ok c _ _ => some c
  | .notFound => none

/-- The content string carried by a metadata response, if any. -/
def MetaResult.contentOf : MetaResult → Option String
  | .ok c _ _ _ => some c
  | .notFound => none

/-! ## Basic lemmas about the storage layer -/

theorem deletePaste_allOk (s : Store) : deletePaste allOk s = (true, none) :=
  rfl

theorem deletePaste_allFail (s : Store) : deletePaste allFail s = (false, s) :=
  rfl

theorem deletePaste_snd_or (ok : Nat → Bool) (s : Store) :
    (deletePaste ok s).2 = none ∨ (deletePaste ok s).2 = s := by
  unfold deletePaste deletePasteGo
  by_cases h0 : ok 0 <;> by_cases h1 : ok 1 <;> by_cases h2 : ok 2 <;>
    simp [h0, h1, h2, deletePasteGo]

theorem getPaste_good (ok : Nat → Bool) (p : Paste) :
    getPaste ok (some (Stored.good p)) = (some p, some (Stored.good p)) :=
  rfl

/-! ## Unfolding lemmas for the counted-fetch handler -/

theorem fetchCounted_good (ok : Nat → Bool) (id : String) (now : Nat)
    (p : Paste) (hid : badId id = false) :
    fetchCounted ok id now (some (Stored.good p)) =
      fetchCountedAfterLoad ok now p (some (Stored.good p)) := by
  simp [fetchCounted, hid, getPaste]

theorem afterLoad_not_expired (ok : Nat → Bool) (now : Nat) (p : Paste)
    (s : Store) (h : ∀ e ∈ p.expires_at, now < e) :
    fetchCountedAfterLoad ok now p s = fetchCountedDecrement ok p s := by
  cases hE : p.expires_at with
  | none => simp [fetchCountedAfterLoad, hE]
  | some e =>
    have he : now < e := h e (by simp [hE])
    simp [fetchCountedAfterLoad, hE, Nat.not_le.mpr he]

theorem fetchCounted_expired (ok : Nat → Bool) (id : String) (now : Nat)
    (p : Paste) (e : Nat) (hid : badId id = false)
    (he : p.expires_at = some e) (hle : e ≤ now) :
    fetchCounted ok id now (some (Stored.good p)) =
      (FetchResult.notFound, (deletePaste ok (some (Stored.good p))).2) := by
  rw [fetchCounted_good ok id now p hid]
  simp [fetchCountedAfterLoad, he, hle]

theorem decrement_none (ok : Nat → Bool) (p : Paste) (s : Store)
    (hrem : p.remaining_views = none) :
    decrementViewsAtomic ok p s = (DecResult.success p false, s) := by
  simp [decrementViewsAtomic, hrem]

theorem decrement_exhausted (ok : Nat → Bool) (p : Paste) (v : Int) (s : Store)
    (hrem : p.remaining_views = some v) (hv : v ≤ 0) :
    decrementViewsAtomic ok p s = (DecResult.failure, (deletePaste ok s).2) := by
  simp [decrementViewsAtomic, hrem, hv]

theorem decrement_last (ok : Nat → Bool) (p : Paste) (s : Store)
    (hrem : p.remaining_views = some 1) :
    decrementViewsAtomic ok p s =
      (DecResult.success { p with remaining_views := some 0 } true,
        (deletePaste ok s).2) := by
  simp [decrementViewsAtomic, hrem]

theorem decrement_more (ok : Nat → Bool) (p : Paste) (v : Int) (s : Store)
    (hrem : p.remaining_views = some v) (hv : 2 ≤ v) :
    decrementViewsAtomic ok p s =
      (DecResult.success { p with remaining_views := some (v - 1) } false,
        savePaste { p with remaining_views := some (v - 1) } s) := by
  have h0 : ¬ v ≤ 0 := by omega
  have h1 : ¬ v - 1 ≤ 0 := by omega
  simp [decrementViewsAtomic, hrem, h0, h1]

theorem fcd_none (ok : Nat → Bool) (p : Paste) (s : Store)
    (hrem : p.remaining_views = none) :
    fetchCountedDecrement ok p s =
      (FetchResult.ok p.content none (respExpires p.expires_at),
        savePaste { p with view_count := p.view_count + 1 } s) := by
  simp [fetchCountedDecrement, decrement_none ok p s hrem, hrem]

theorem fcd_exhausted (ok : Nat → Bool) (p : Paste) (v : Int) (s : Store)
    (hrem : p.remaining_views = some v) (hv : v ≤ 0) :
    fetchCountedDecrement ok p s =
      (FetchResult.notFound, (deletePaste ok s).2) := by
  simp [fetchCountedDecrement, decrement_exhausted ok p v s hrem hv]

theorem fcd_last (ok : Nat → Bool) (p : Paste) (s : Store)
    (hrem : p.remaining_views = some 1) :
    fetchCountedDecrement ok p s =
      (FetchResult.ok p.content (some 0) (respExpires p.expires_at),
        (deletePaste ok s).2) := by
  simp [fetchCountedDecrement, decrement_last ok p s hrem]

theorem fcd_more (ok : Nat → Bool) (p : Paste) (v : Int) (s : Store)
    (hrem : p.remaining_views = some v) (hv : 2 ≤ v) :
    fetchCountedDecrement ok p s =
      (FetchResult.ok p.content (some (v - 1)) (respExpires p.expires_at),
        some (Stored.good
          { p with remaining_views := some (v - 1),
                   view_count := p.view_count + 1 })) := by
  simp [fetchCountedDecrement, decrement_more ok p v s hrem hv, savePaste]

/-! ## Unfolding lemmas for the metadata handler -/

theorem fetchMetadata_good_ok (ok : Nat → Bool) (id : String) (now : Nat)
    (p : Paste) (hid : badId id = false)
    (hexp : ∀ e ∈ p.expires_at, now < e)
    (hrem : ∀ v ∈ p.remaining_views, 1 ≤ v) :
    fetchMetadata ok id now (some (Stored.good p)) =
      (MetaResult.ok (escapeHtml p.content) p.remaining_views
          (respExpires p.expires_at) (respCreated p.created_at),
        some (Stored.good p)) := by
  have hview : fetchMetadataView ok p (some (Stored.good p)) =
      (MetaResult.ok (escapeHtml p.content) p.remaining_views
          (respExpires p.expires_at) (respCreated p.created_at),
        some (Stored.good p)) := by
    cases hR : p.remaining_views with
    | none => simp [fetchMetadataView, hR]
    | some v =>
      have hv : 1 ≤ v := hrem v (by simp [hR])
      have h0 : ¬ v ≤ 0 := by omega
      simp [fetchMetadataView, hR, h0]
  cases hE : p.expires_at with
  | none => simp [fetchMetadata, hid, getPaste, hE, hview]
  | some e =>
    have he : now < e := hexp e (by simp [hE])
    simp [fetchMetadata, hid, getPaste, hE, Nat.not_le.mpr he, hview]

theorem fetchMetadata_expired (ok : Nat → Bool) (id : String) (now : Nat)
    (p : Paste) (e : Nat) (hid : badId id = false)
    (he : p.expires_at = some e) (hle : e ≤ now) :
    fetchMetadata ok id now (some (Stored.good p)) =
      (MetaResult.notFound, (deletePaste ok (some (Stored.good p))).2) := by
  simp [fetchMetadata, hid, getPaste, he, hle]

theorem fetchMetadata_exhausted (ok : Nat → Bool) (id : String) (now : Nat)
    (p : Paste) (v : Int) (hid : badId id = false)
    (hexp : ∀ e ∈ p.expires_at, now < e)
    (hrem : p.remaining_views = some v) (hv : v ≤ 0) :
    fetchMetadata ok id now (some (Stored.good p)) =
      (MetaResult.notFound, (deletePaste ok (some (Stored.good p))).2) := by
  have hview : fetchMetadataView ok p (some (Stored.good p)) =
      (MetaResult.notFound, (deletePaste ok (some (Stored.good p))).2) := by
    simp [fetchMetadataView, hrem, hv]
  cases hE : p.expires_at with
  | none => simp [fetchMetadata, hid, getPaste, hE, hview]
  | some e =>
    have he : now < e := hexp e (by simp [hE])
    simp [fetchMetadata, hid, getPaste, hE, Nat.not_le.mpr he, hview]

/-! ## The create handler on valid input -/

/-- On a valid request the create handler persists exactly the
`pasteData` record of the source: `created_at = now`,
`expires_at = now + ttl_seconds * 1000` (or `null`),
`max_views = remaining_views = max_views` (or `null`), `view_count = 0`. -/
theorem createPaste_eq (s : String) (ht hm : Option Int) (now : Nat)
    (hs : jsTrim s ≠ "") (hlen : s.length ≤ 10485760)
    (hT : ∀ i ∈ ht, 1 ≤ i ∧ i ≤ 31536000)
    (hM : ∀ m ∈ hm, 1 ≤ m ∧ m ≤ 1000000) :
    createPaste (JsVal.jstr s) (jsOptInt ht) (jsOptInt hm) now =
      CreateOutcome.created
        ⟨s, now, ht.map (fun i => now + i.toNat * 1000), hm, hm, 0⟩ := by
  have hlen' : ¬ 10485760 < s.length := by omega
  have hTtl : checkTtl (jsOptInt ht) = none := by
    cases ht with
    | none => rfl
    | some i =>
      obtain ⟨h1, h2⟩ := hT i (by simp)
      have hlt : ¬ i < 1 := by omega
      have hgt : ¬ 31536000 < i := by omega
      simp [jsOptInt, checkTtl, hlt, hgt]
  have hMv : checkMaxViews (jsOptInt hm) = none := by
    cases hm with
    | none => rfl
    | some m =>
      obtain ⟨h1, h2⟩ := hM m (by simp)
      have hlt : ¬ m < 1 := by omega
      have hgt : ¬ 1000000 < m := by omega
      simp [jsOptInt, checkMaxViews, hlt, hgt]
  have hExp : expiresOf (jsOptInt ht) now = ht.map (fun i => now + i.toNat * 1000) := by
    cases ht with
    | none => rfl
    | some i =>
      obtain ⟨h1, _⟩ := hT i (by simp)
      have h0 : i ≠ 0 := by omega
      simp [jsOptInt, expiresOf, jsTruthy, h0]
  have hV : viewsOf (jsOptInt hm) = hm := by
    cases hm with
    | none => rfl
    | some m =>
      obtain ⟨h1, _⟩ := hM m (by simp)
      have h0 : m ≠ 0 := by omega
      simp [jsOptInt, viewsOf, jsTruthy, h0]
  simp [createPaste, hs, hlen', hTtl, hMv, hExp, hV]

/-! ## Claim theorems -/

/-- C2: the claimed linearizability of `FetchCounted` fails on the
code.  With `remaining_views = 1`, in the interleaving
load(A), load(B), decide-and-persist(A), decide-and-persist(B) — both
loads sit before either decrement, exactly the suspension pattern the
`await`-separated load and decrement of the handler allow — both racing
calls are served the content: the last view is spent twice, while the
claim (and the code's own "atomic … race condition protection"
comments) say exactly one call may succeed. -/
theorem counted_race_both_succeed :
    (getPaste allOk (some (Stored.good ⟨"secret", 0, none, some 1, some 1, 0⟩))).1 =
        some ⟨"secret", 0, none, some 1, some 1, 0⟩ ∧
    fetchCountedAfterLoad allOk 5 ⟨"secret", 0, none, some 1, some 1, 0⟩
        (some (Stored.good ⟨"secret", 0, none, some 1, some 1, 0⟩)) =
      (FetchResult.ok "secret" (some 0) none, none) ∧
    fetchCountedAfterLoad allOk 5 ⟨"secret", 0, none, some 1, some 1, 0⟩ none =
      (FetchResult.ok "secret" (some 0) none, none) :=
  ⟨rfl, rfl, rfl⟩

/-- C4 (counterexample): `Create` then `FetchMetadata` does not return
the content character for character — the metadata handler applies
`escapeHtml` to the payload.  For `content = "<"` the fetched content is
`"&lt;"`. -/
theorem metadata_escapes_content_cex :
    createPaste (JsVal.jstr "<") JsVal.jnull JsVal.jnull 5 =
      CreateOutcome.created ⟨"<", 5, none, none, none, 0⟩ ∧
    (fetchMetadata allOk "abcdefghij" 5
        (some (Stored.good ⟨"<", 5, none, none, none, 0⟩))).1.contentOf =
      some "&lt;" ∧
    some "&lt;" ≠ some "<" := by
  refine ⟨?_, ?_, ?_⟩ <;> decide

/-- C4 (amended): the storage and lifecycle layers keep the payload
unchanged — the persisted record and the counted fetch carry `content`
character for character — while `FetchMetadata` returns the payload
with the HTML characters escaped (`escapeHtml content`). -/
theorem create_fetch_roundtrip_amended (content id : String) (t0 now : Nat)
    (hc : jsTrim content ≠ "") (hlen : content.length ≤ 10485760)
    (hid : badId id = false) :
    createPaste (JsVal.jstr content) JsVal.jnull JsVal.jnull t0 =
      CreateOutcome.created ⟨content, t0, none, none, none, 0⟩ ∧
    (fetchCounted allOk id now
        (some (Stored.good ⟨content, t0, none, none, none, 0⟩))).1 =
      FetchResult.ok content none none ∧
    (fetchMetadata allOk id now
        (some (Stored.good ⟨content, t0, none, none, none, 0⟩))).1 =
      MetaResult.ok (escapeHtml content) none none (respCreated t0) := by
  refine ⟨?_, ?_, ?_⟩
  · simpa using createPaste_eq content none none t0 hc hlen (by simp) (by simp)
  · rw [fetchCounted_good allOk id now _ hid,
      afterLoad_not_expired allOk now _ _ (by simp),
      fcd_none allOk _ _ rfl]
    simp [respExpires]
  · rw [fetchMetadata_good_ok allOk id now _ hid (by simp) (by simp)]
    simp [respExpires]

/-- C7: the Clock Provider in test mode returns a header override that
parses (via `parseInt`) to a non-negative integer, and falls back to
wall-clock time on a missing, non-parsing (`NaN`) or negative override;
in every case it returns either the override or the wall clock, never
an error. -/
theorem clock_override_contract :
    (∀ (s : String) (v : Int) (wall : Nat), parseIntJS s = some v → 0 ≤ v →
        getCurrentTime true (some s) wall = v.toNat) ∧
    (∀ wall : Nat, getCurrentTime true none wall = wall) ∧
    (∀ (s : String) (wall : Nat), parseIntJS s = none →
        getCurrentTime true (some s) wall = wall) ∧
    (∀ (s : String) (v : Int) (wall : Nat), parseIntJS s = some v → v < 0 →
        getCurrentTime true (some s) wall = wall) ∧
    (∀ (tm : Bool) (hdr : Option String) (wall : Nat),
        getCurrentTime tm hdr wall = wall ∨
          ∃ s v, hdr = some s ∧ parseIntJS s = some v ∧ 0 ≤ v ∧
            getCurrentTime tm hdr wall = v.toNat) := by
  refine ⟨?_, ?_, ?_, ?_, ?_⟩
  · intro s v wall hp hv
    by_cases hs : s = ""
    · subst hs; simp [parseIntJS] at hp
    · simp [getCurrentTime, hs, hp, Int.not_lt.mpr hv]
  · intro wall; rfl
  · intro s wall hp
    by_cases hs : s = ""
    · simp [getCurrentTime, hs]
    · simp [getCurrentTime, hs, hp]
  · intro s v wall hp hv
    by_cases hs : s = ""
    · simp [getCurrentTime, hs]
    · simp [getCurrentTime, hs, hp, hv]
  · intro tm hdr wall
    cases tm with
    | false => exact Or.inl rfl
    | true =>
      cases hdr with
      | none => exact Or.inl rfl
      | some s =>
        by_cases hs : s = ""
        · exact Or.inl (by simp [getCurrentTime, hs])
        · cases hp : parseIntJS s with
          | none => exact Or.inl (by simp [getCurrentTime, hs, hp])
          | some v =>
            by_cases hv : v < 0
            · exact Or.inl (by simp [getCurrentTime, hs, hp, hv])
            · exact Or.inr ⟨s, v, rfl, hp, by omega,
                by simp [getCurrentTime, hs, hp, hv]⟩

/-- C7 witness: concrete overrides — `"123"` is used, `"-4"`, `"abc"`
and a missing header fall back to the wall clock. -/
theorem clock_override_contract_witness :
    getCurrentTime true (some "123") 999 = 123 ∧
    getCurrentTime true (some "-4") 999 = 999 ∧
    getCurrentTime true (some "abc") 999 = 999 ∧
    getCurrentTime true none 999 = 999 :=
  ⟨clock_override_contract.1 "123" 123 999 (by decide) (by decide),
    clock_override_contract.2.2.2.1 "-4" (-4) 999 (by decide) (by decide),
    clock_override_contract.2.2.1 "abc" 999 (by decide),
    clock_override_contract.2.1 999⟩

/-- C8: a stored payload that fails to deserialize is treated as
corruption: the load deletes it and reports absence, the fetch
operations answer `NotFound` (never a distinct corruption error), and
every subsequent load of the identifier also reports absence,
whatever the outcome of the delete attempts. -/
theorem corrupt_payload_absent (ok : Nat → Bool) (id : String) (now : Nat)
    (hid : badId id = false) :
    (getPaste ok (some Stored.bad)).1 = none ∧
    getPaste allOk (some Stored.bad) = (none, none) ∧
    (getPaste ok ((getPaste ok (some Stored.bad)).2)).1 = none ∧
    (fetchCounted ok id now (some Stored.bad)).1 = FetchResult.notFound ∧
    (fetchMetadata ok id now (some Stored.bad)).1 = MetaResult.notFound := by
  refine ⟨rfl, rfl, ?_, ?_, ?_⟩
  · show (getPaste ok ((deletePaste ok (some Stored.bad)).2)).1 = none
    rcases deletePaste_snd_or ok (some Stored.bad) with h | h <;> rw [h] <;> rfl
  · simp [fetchCounted, hid, getPaste]
  · simp [fetchMetadata, hid, getPaste]

/-- C8 witness: a corrupted payload under a backend whose deletes all
fail is still absent on this and the following load, and both fetches
report `NotFound`. -/
theorem corrupt_payload_absent_witness :
    (getPaste allFail (some Stored.bad)).1 = none ∧
    getPaste allOk (some Stored.bad) = (none, none) ∧
    (getPaste allFail ((getPaste allFail (some Stored.bad)).2)).1 = none ∧
    (fetchCounted allFail "abcdefghij" 5 (some Stored.bad)).1 =
      FetchResult.notFound ∧
    (fetchMetadata allFail "abcdefghij" 5 (some Stored.bad)).1 =
      MetaResult.notFound :=
  corrupt_payload_absent allFail "abcdefghij" 5 (by decide)

/-- C4 witness: a concrete valid creation and both fetches on it. -/
theorem create_fetch_roundtrip_amended_witness :
    createPaste (JsVal.jstr "a&b") JsVal.jnull JsVal.jnull 7 =
      CreateOutcome.created ⟨"a&b", 7, none, none, none, 0⟩ ∧
    (fetchCounted allOk "abcdefghij" 9
        (some (Stored.good ⟨"a&b", 7, none, none, none, 0⟩))).1 =
      FetchResult.ok "a&b" none none ∧
    (fetchMetadata allOk "abcdefghij" 9
        (some (Stored.good ⟨"a&b", 7, none, none, none, 0⟩))).1 =
      MetaResult.ok (escapeHtml "a&b") none none (respCreated 7) :=
  create_fetch_roundtrip_amended "a&b" "abcdefghij" 7 9 (by decide) (by decide)
    (by decide)

/-- C5: a record whose `remaining_views` is non-null and `≤ 0` is never
served: both `FetchCounted` and `FetchMetadata` delete it in the same
step and answer `NotFound`. -/
theorem exhausted_record_never_served (id : String) (now : Nat) (p : Paste)
    (v : Int) (hid : badId id = false)
    (hrem : p.remaining_views = some v) (hv : v ≤ 0) :
    fetchCounted allOk id now (some (Stored.good p)) =
      (FetchResult.notFound, none) ∧
    fetchMetadata allOk id now (some (Stored.good p)) =
      (MetaResult.notFound, none) := by
  constructor
  · rw [fetchCounted_good allOk id now p hid]
    cases hE : p.expires_at with
    | none =>
      rw [afterLoad_not_expired allOk now p _ (by simp [hE]),
        fcd_exhausted allOk p v _ hrem hv]
      simp [deletePaste_allOk]
    | some e =>
      by_cases hle : e ≤ now
      · simp [fetchCountedAfterLoad, hE, hle, deletePaste_allOk]
      · rw [afterLoad_not_expired allOk now p _
            (by simp [hE]; omega),
          fcd_exhausted allOk p v _ hrem hv]
        simp [deletePaste_allOk]
  · cases hE : p.expires_at with
    | none =>
      rw [fetchMetadata_exhausted allOk id now p v hid (by simp [hE]) hrem hv]
      simp [deletePaste_allOk]
    | some e =>
      by_cases hle : e ≤ now
      · rw [fetchMetadata_expired allOk id now p e hid hE hle]
        simp [deletePaste_allOk]
      · rw [fetchMetadata_exhausted allOk id now p v hid
            (by simp [hE]; omega) hrem hv]
        simp [deletePaste_allOk]

/-- C5 witness: a concrete zero-views record is deleted and hidden by
both fetch operations. -/
theorem exhausted_record_never_served_witness :
    fetchCounted allOk "abcdefghij" 5
        (some (Stored.good ⟨"c", 7, none, some 1, some 0, 3⟩)) =
      (FetchResult.notFound, none) ∧
    fetchMetadata allOk "abcdefghij" 5
        (some (Stored.good ⟨"c", 7, none, some 1, some 0, 3⟩)) =
      (MetaResult.notFound, none) :=
  exhausted_record_never_served "abcdefghij" 5 _ 0 (by decide) rfl (by decide)

/-- C10: when every backend delete attempt fails, `deletePaste` reports
the failure only by returning `false`, and a fetch whose expiry or
exhaustion check triggered the delete still answers `NotFound` — the
failed delete never surfaces as an error from a fetch. -/
theorem delete_failure_swallowed (id : String) (now : Nat) (p : Paste)
    (e : Nat) (v : Int) (hid : badId id = false) :
    (∀ s : Store, deletePaste allFail s = (false, s)) ∧
    (p.expires_at = some e → e ≤ now →
      fetchCounted allFail id now (some (Stored.good p)) =
        (FetchResult.notFound, some (Stored.good p)) ∧
      fetchMetadata allFail id now (some (Stored.good p)) =
        (MetaResult.notFound, some (Stored.good p))) ∧
    (p.expires_at = none → p.remaining_views = some v → v ≤ 0 →
      fetchCounted allFail id now (some (Stored.good p)) =
        (FetchResult.notFound, some (Stored.good p)) ∧
      fetchMetadata allFail id now (some (Stored.good p)) =
        (MetaResult.notFound, some (Stored.good p))) := by
  refine ⟨deletePaste_allFail, fun he hle => ⟨?_, ?_⟩,
    fun he hrem hv => ⟨?_, ?_⟩⟩
  · rw [fetchCounted_expired allFail id now p e hid he hle,
      deletePaste_allFail]
  · rw [fetchMetadata_expired allFail id now p e hid he hle,
      deletePaste_allFail]
  · rw [fetchCounted_good allFail id now p hid,
      afterLoad_not_expired allFail now p _ (by simp [he]),
      fcd_exhausted allFail p v _ hrem hv, deletePaste_allFail]
  · rw [fetchMetadata_exhausted allFail id now p v hid (by simp [he]) hrem hv,
      deletePaste_allFail]

/-- C10 witness: an expired record and an exhausted record under an
all-failing delete backend. -/
theorem delete_failure_swallowed_witness :
    fetchCounted allFail "abcdefghij" 5
        (some (Stored.good ⟨"c", 1, some 4, none, none, 0⟩)) =
      (FetchResult.notFound, some (Stored.good ⟨"c", 1, some 4, none, none, 0⟩)) ∧
    fetchMetadata allFail "abcdefghij" 5
        (some (Stored.good ⟨"c", 1, none, some 1, some 0, 1⟩)) =
      (MetaResult.notFound, some (Stored.good ⟨"c", 1, none, some 1, some 0, 1⟩)) :=
  ⟨((delete_failure_swallowed "abcdefghij" 5 ⟨"c", 1, some 4, none, none, 0⟩
        4 0 (by decide)).2.1 rfl (by decide)).1,
    ((delete_failure_swallowed "abcdefghij" 5 ⟨"c", 1, none, some 1, some 0, 1⟩
        4 0 (by decide)).2.2 rfl rfl (by decide)).2⟩

/-- A value passing the `ttl_seconds` checks is absent or an integer in
`[1, 31536000]`. -/
theorem validOptInt_of_checkTtl (t : JsVal) (h : checkTtl t = none) :
    validOptInt t 31536000 := by
  cases t with
  | undef => trivial
  | jnull => trivial
  | jstr s => simp [checkTtl] at h
  | jother => simp [checkTtl] at h
  | jnum n =>
    cases n with
    | intVal i =>
      simp only [checkTtl] at h
      split_ifs at h with h1 h2
      exact ⟨by omega, by omega⟩
    | nan => simp [checkTtl] at h
    | inf => simp [checkTtl] at h
    | neginf => simp [checkTtl] at h
    | fracVal => simp [checkTtl] at h

/-- A value passing the `max_views` checks is absent or an integer in
`[1, 1000000]`. -/
theorem validOptInt_of_checkMaxViews (m : JsVal) (h : checkMaxViews m = none) :
    validOptInt m 1000000 := by
  cases m with
  | undef => trivial
  | jnull => trivial
  | jstr s => simp [checkMaxViews] at h
  | jother => simp [checkMaxViews] at h
  | jnum n =>
    cases n with
    | intVal i =>
      simp only [checkMaxViews] at h
      split_ifs at h with h1 h2
      exact ⟨by omega, by omega⟩
    | nan => simp [checkMaxViews] at h
    | inf => simp [checkMaxViews] at h
    | neginf => simp [checkMaxViews] at h
    | fracVal => simp [checkMaxViews] at h

/-- Every invalid creation request is answered with some validation
error message. -/
theorem createPaste_invalid (c t m : JsVal) (now : Nat)
    (hnv : ¬ validCreate c t m) :
    ∃ msg, createPaste c t m now = CreateOutcome.validationError msg := by
  cases c with
  | undef => exact ⟨_, rfl⟩
  | jnull => exact ⟨_, rfl⟩
  | jnum n => exact ⟨_, rfl⟩
  | jother => exact ⟨_, rfl⟩
  | jstr s =>
    by_cases h1 : jsTrim s = ""
    · exact ⟨"content cannot be empty", by simp [createPaste, h1]⟩
    · by_cases h2 : 10485760 < s.length
      · exact ⟨"content exceeds maximum size of 10MB",
          by simp [createPaste, h1, h2]⟩
      · cases hT : checkTtl t with
        | some msg => exact ⟨msg, by simp [createPaste, h1, h2, hT]⟩
        | none =>
          cases hM : checkMaxViews m with
          | some msg => exact ⟨msg, by simp [createPaste, h1, h2, hT, hM]⟩
          | none =>
            exact absurd
              (⟨h1, by omega, validOptInt_of_checkTtl t hT,
                validOptInt_of_checkMaxViews m hM⟩ :
                validCreate (JsVal.jstr s) t m)
              hnv

/-- C9 (counterexample): the creation response body is
`{ id, url }` — it carries neither `createdAt`, `expiresAt` nor
`maxViews`. -/
theorem create_response_fields_cex :
    createResponseFields = ["id", "url"] ∧
    ¬ ("createdAt" ∈ createResponseFields) ∧
    ¬ ("expiresAt" ∈ createResponseFields) ∧
    ¬ ("maxViews" ∈ createResponseFields) := by
  refine ⟨rfl, ?_, ?_, ?_⟩ <;> decide

/-- C9 (amended): for every valid creation request the handler persists
a record with `createdAt = now`, `expiresAt = now + ttlSeconds * 1000`
or null, and `maxViews` (mirrored into `remainingViews`) as given or
null, and responds with `{ id, url }`; every invalid request is
answered by a validation error instead, and only valid requests ever
produce a record. -/
theorem create_contract_amended :
    (∀ (s : String) (ht hm : Option Int) (now : Nat),
        jsTrim s ≠ "" → s.length ≤ 10485760 →
        (∀ i ∈ ht, 1 ≤ i ∧ i ≤ 31536000) →
        (∀ m ∈ hm, 1 ≤ m ∧ m ≤ 1000000) →
        createPaste (JsVal.jstr s) (jsOptInt ht) (jsOptInt hm) now =
          CreateOutcome.created
            ⟨s, now, ht.map (fun i => now + i.toNat * 1000), hm, hm, 0⟩) ∧
    (∀ (c t m : JsVal) (now : Nat), ¬ validCreate c t m →
        ∃ msg, createPaste c t m now = CreateOutcome.validationError msg) ∧
    (∀ (c t m : JsVal) (now : Nat) (rec : Paste),
        createPaste c t m now = CreateOutcome.created rec →
        validCreate c t m) ∧
    createResponseFields = ["id", "url"] := by
  refine ⟨fun s ht hm now hs hlen hT hM => createPaste_eq s ht hm now hs hlen hT hM,
    createPaste_invalid, ?_, rfl⟩
  intro c t m now rec hcr
  by_contra hnv
  obtain ⟨msg, hmsg⟩ := createPaste_invalid c t m now hnv
  rw [hcr] at hmsg
  exact CreateOutcome.noConfusion hmsg

/-- C9 witness: a concrete valid creation and a concrete invalid one. -/
theorem create_contract_amended_witness :
    createPaste (JsVal.jstr "hi") (jsOptInt (some 60)) (jsOptInt (some 3)) 5 =
      CreateOutcome.created ⟨"hi", 5, some 60005, some 3, some 3, 0⟩ ∧
    (∃ msg, createPaste (JsVal.jstr "   ") JsVal.jnull JsVal.jnull 5 =
      CreateOutcome.validationError msg) :=
  ⟨by
      have h := create_contract_amended.1 "hi" (some 60) (some 3) 5 (by decide)
        (by decide) (by simp) (by simp)
      simpa using h,
    create_contract_amended.2.1 (JsVal.jstr "   ") JsVal.jnull JsVal.jnull 5
      (fun h => h.1 (by decide))⟩

/-- C6: `FetchMetadata` persists nothing on its success path, while a
successful `FetchCounted` on a record with non-null `remaining_views`
responds with `remaining_views` decreased by exactly 1 and either
deletes the record (last view) or stores it with only
`remaining_views` decremented and `view_count` incremented;
with null `remaining_views` only `view_count` changes. -/
theorem fetch_frame_effects (ok : Nat → Bool) (id : String) (now : Nat)
    (s : Store) (c : String) (rem : Option Int) (eA cA : Option Nat)
    (p : Paste) (v : Int) (hid : badId id = false)
    (hexp : ∀ e ∈ p.expires_at, now < e) :
    ((fetchMetadata ok id now s).1 = MetaResult.ok c rem eA cA →
      (fetchMetadata ok id now s).2 = s) ∧
    (p.remaining_views = some v → 1 ≤ v →
      fetchCounted allOk id now (some (Stored.good p)) =
        (FetchResult.ok p.content (some (v - 1)) (respExpires p.expires_at),
          if v = 1 then none
          else some (Stored.good
            { p with remaining_views := some (v - 1),
                     view_count := p.view_count + 1 }))) ∧
    (p.remaining_views = none →
      fetchCounted allOk id now (some (Stored.good p)) =
        (FetchResult.ok p.content none (respExpires p.expires_at),
          some (Stored.good { p with view_count := p.view_count + 1 }))) := by
  refine ⟨?_, ?_, ?_⟩
  · intro h
    rcases s with _ | st
    · simp [fetchMetadata, hid, getPaste] at h
    · rcases st with q | _
      · cases hE : q.expires_at with
        | some e =>
          by_cases hle : e ≤ now
          · rw [fetchMetadata_expired ok id now q e hid hE hle] at h
            exact absurd h (by simp)
          · cases hR : q.remaining_views with
            | some w =>
              by_cases hw : w ≤ 0
              · rw [fetchMetadata_exhausted ok id now q w hid
                    (by simp [hE]; omega) hR hw] at h
                exact absurd h (by simp)
              · rw [fetchMetadata_good_ok ok id now q hid
                    (by simp [hE]; omega) (by simp [hR]; omega)]
            | none =>
              rw [fetchMetadata_good_ok ok id now q hid
                  (by simp [hE]; omega) (by simp [hR])]
        | none =>
          cases hR : q.remaining_views with
          | some w =>
            by_cases hw : w ≤ 0
            · rw [fetchMetadata_exhausted ok id now q w hid
                  (by simp [hE]) hR hw] at h
              exact absurd h (by simp)
            · rw [fetchMetadata_good_ok ok id now q hid (by simp [hE])
                  (by simp [hR]; omega)]
          | none =>
            rw [fetchMetadata_good_ok ok id now q hid (by simp [hE])
                (by simp [hR])]
      · simp [fetchMetadata, hid, getPaste] at h
  · intro hrem hv
    rw [fetchCounted_good allOk id now p hid,
      afterLoad_not_expired allOk now p _ hexp]
    by_cases h1 : v = 1
    · subst h1
      rw [fcd_last allOk p _ hrem]
      simp [deletePaste_allOk]
    · rw [fcd_more allOk p v _ hrem (by omega)]
      simp [h1]
  · intro hrem
    rw [fetchCounted_good allOk id now p hid,
      afterLoad_not_expired allOk now p _ hexp,
      fcd_none allOk p _ hrem]
    simp [savePaste, hrem]

/-- C6 witness: a metadata fetch leaves the store unchanged; a counted
fetch on `remaining_views = 2` stores exactly the decrement and the
`view_count` bump. -/
theorem fetch_frame_effects_witness :
    (fetchMetadata allOk "abcdefghij" 5
        (some (Stored.good ⟨"c", 7, none, some 2, some 2, 0⟩))).2 =
      some (Stored.good ⟨"c", 7, none, some 2, some 2, 0⟩) ∧
    fetchCounted allOk "abcdefghij" 5
        (some (Stored.good ⟨"c", 7, none, some 2, some 2, 0⟩)) =
      (FetchResult.ok "c" (some 1) none,
        some (Stored.good ⟨"c", 7, none, some 2, some 1, 1⟩)) := by
  have h := fetch_frame_effects allOk "abcdefghij" 5
      (some (Stored.good ⟨"c", 7, none, some 2, some 2, 0⟩)) "c" (some 2) none
      (some 7) ⟨"c", 7, none, some 2, some 2, 0⟩ 2 (by decide) (by simp)
  refine ⟨h.1 (by decide), ?_⟩
  have h2 := h.2.1 rfl (by decide)
  simpa [respExpires] using h2

/-- After `k < N` counted fetches of a fresh record with
`maxViews = N`, the stored record has `remaining_views = N - k` and
`view_count = k`, all other fields untouched. -/
theorem runCounted_inv (N : Nat) (content id : String) (c0 now : Nat)
    (hid : badId id = false) :
    ∀ k, k < N →
      runCounted allOk id now k
          (some (Stored.good
            ⟨content, c0, none, some (N : Int), some (N : Int), 0⟩)) =
        some (Stored.good
          ⟨content, c0, none, some (N : Int), some ((N : Int) - k), k⟩) := by
  intro k
  induction k with
  | zero => intro _; simp [runCounted]
  | succ k ih =>
    intro hk
    have hrec := ih (by omega)
    simp only [runCounted]
    rw [hrec]
    rw [fetchCounted_good allOk id now _ hid]
    rw [afterLoad_not_expired allOk now _ _ (by simp)]
    rw [fcd_more allOk _ ((N : Int) - k) _ rfl (by omega)]
    simp
    omega

/-- C1: for a record created with `maxViews = N` and no TTL, the first
`N` counted fetches each return the content (with the remaining budget
in the response), the `N`-th leaves the identifier's key empty, and a
further counted fetch, a metadata fetch or a raw load all find it
absent. -/
theorem maxViews_budget_exact (N : Nat) (content id : String) (c0 now : Nat)
    (hN1 : 1 ≤ N) (hN2 : N ≤ 1000000)
    (hc : jsTrim content ≠ "") (hlen : content.length ≤ 10485760)
    (hid : badId id = false) :
    createPaste (JsVal.jstr content) JsVal.jnull
        (JsVal.jnum (JsNum.intVal (N : Int))) c0 =
      CreateOutcome.created
        ⟨content, c0, none, some (N : Int), some (N : Int), 0⟩ ∧
    (∀ k, k < N →
      (fetchCounted allOk id now
          (runCounted allOk id now k
            (some (Stored.good
              ⟨content, c0, none, some (N : Int), some (N : Int), 0⟩)))).1 =
        FetchResult.ok content (some ((N : Int) - k - 1)) none) ∧
    runCounted allOk id now N
        (some (Stored.good
          ⟨content, c0, none, some (N : Int), some (N : Int), 0⟩)) = none ∧
    fetchCounted allOk id now none = (FetchResult.notFound, none) ∧
    fetchMetadata allOk id now none = (MetaResult.notFound, none) ∧
    getPaste allOk none = (none, none) := by
  refine ⟨?_, ?_, ?_, ?_, ?_, rfl⟩
  · have h := createPaste_eq content none (some (N : Int)) c0 hc hlen (by simp)
      (by simp; omega)
    simpa [jsOptInt] using h
  · intro k hk
    rw [runCounted_inv N content id c0 now hid k hk]
    rw [fetchCounted_good allOk id now _ hid,
      afterLoad_not_expired allOk now _ _ (by simp)]
    by_cases h1 : (N : Int) - k = 1
    · rw [fcd_last allOk _ _ (by simp [h1])]
      simp [respExpires]
      omega
    · rw [fcd_more allOk _ ((N : Int) - k) _ rfl (by omega)]
      simp [respExpires]
  · obtain ⟨M, rfl⟩ : ∃ M, N = M + 1 := ⟨N - 1, by omega⟩
    simp only [runCounted]
    rw [runCounted_inv (M + 1) content id c0 now hid M (by omega)]
    rw [fetchCounted_good allOk id now _ hid,
      afterLoad_not_expired allOk now _ _ (by simp)]
    rw [fcd_last allOk _ _ (by simp)]
    simp [deletePaste_allOk]
  · simp [fetchCounted, hid, getPaste]
  · simp [fetchMetadata, hid, getPaste]

/-- C1 witness: with `maxViews = 2`, the first fetch succeeds with one
view left, and after two fetches the key is empty. -/
theorem maxViews_budget_exact_witness :
    (fetchCounted allOk "abcdefghij" 5
        (some (Stored.good ⟨"hi", 0, none, some 2, some 2, 0⟩))).1 =
      FetchResult.ok "hi" (some 1) none ∧
    runCounted allOk "abcdefghij" 5 2
        (some (Stored.good ⟨"hi", 0, none, some 2, some 2, 0⟩)) = none := by
  have h := maxViews_budget_exact 2 "hi" "abcdefghij" 0 5 (by decide) (by decide)
      (by decide) (by decide) (by decide)
  refine ⟨?_, by simpa using h.2.2.1⟩
  have h1 := h.2.1 0 (by decide)
  simpa [runCounted] using h1

/-- C3: for a record created with `ttlSeconds = T` at `t0`
(`expiresAt = t0 + T*1000`), both fetch operations succeed at
`now = expiresAt - 1` and, at any `now ≥ expiresAt`, answer `NotFound`
and delete the record in the same evaluation — the expiry comparison is
inclusive. -/
theorem ttl_expiry_inclusive_boundary (content id : String) (t0 T : Nat)
    (maxv : Option Int)
    (hc : jsTrim content ≠ "") (hlen : content.length ≤ 10485760)
    (hT1 : 1 ≤ T) (hT2 : T ≤ 31536000)
    (hM : ∀ m ∈ maxv, 1 ≤ m ∧ m ≤ 1000000)
    (hid : badId id = false) :
    createPaste (JsVal.jstr content) (JsVal.jnum (JsNum.intVal (T : Int)))
        (jsOptInt maxv) t0 =
      CreateOutcome.created
        ⟨content, t0, some (t0 + T * 1000), maxv, maxv, 0⟩ ∧
    (fetchCounted allOk id (t0 + T * 1000 - 1)
        (some (Stored.good
          ⟨content, t0, some (t0 + T * 1000), maxv, maxv, 0⟩))).1 =
      FetchResult.ok content (maxv.map (fun m => m - 1))
        (some (t0 + T * 1000)) ∧
    (fetchMetadata allOk id (t0 + T * 1000 - 1)
        (some (Stored.good
          ⟨content, t0, some (t0 + T * 1000), maxv, maxv, 0⟩))).1 =
      MetaResult.ok (escapeHtml content) maxv (some (t0 + T * 1000))
        (respCreated t0) ∧
    (∀ now, t0 + T * 1000 ≤ now →
      fetchCounted allOk id now
          (some (Stored.good
            ⟨content, t0, some (t0 + T * 1000), maxv, maxv, 0⟩)) =
        (FetchResult.notFound, none) ∧
      fetchMetadata allOk id now
          (some (Stored.good
            ⟨content, t0, some (t0 + T * 1000), maxv, maxv, 0⟩)) =
        (MetaResult.notFound, none)) := by
  have hne : t0 + T * 1000 ≠ 0 := by omega
  refine ⟨?_, ?_, ?_, ?_⟩
  · have h := createPaste_eq content (some (T : Int)) maxv t0 hc hlen
      (by simp; omega) hM
    simpa [jsOptInt] using h
  · rw [fetchCounted_good allOk id _ _ hid,
      afterLoad_not_expired allOk _ _ _ (by simp; omega)]
    cases maxv with
    | none =>
      rw [fcd_none allOk _ _ rfl]
      simp [respExpires, hne]
    | some m =>
      have hm := hM m (by simp)
      by_cases h1 : m = 1
      · subst h1
        rw [fcd_last allOk _ _ rfl]
        simp [respExpires, hne]
      · rw [fcd_more allOk _ m _ rfl (by omega)]
        simp [respExpires, hne]
  · rw [fetchMetadata_good_ok allOk id _ _ hid (by simp; omega)
      (fun m hm => (hM m hm).1)]
    simp [respExpires, hne]
  · intro now hnow
    constructor
    · rw [fetchCounted_expired allOk id now _ (t0 + T * 1000) hid rfl hnow]
      simp [deletePaste_allOk]
    · rw [fetchMetadata_expired allOk id now _ (t0 + T * 1000) hid rfl hnow]
      simp [deletePaste_allOk]

/-- C3 witness: `T = 1`, `t0 = 0` — a fetch at 999 ms succeeds, a fetch
at 1000 ms deletes the record and reports `NotFound`. -/
theorem ttl_expiry_inclusive_boundary_witness :
    (fetchCounted allOk "abcdefghij" 999
        (some (Stored.good ⟨"x", 0, some 1000, none, none, 0⟩))).1 =
      FetchResult.ok "x" none (some 1000) ∧
    fetchCounted allOk "abcdefghij" 1000
        (some (Stored.good ⟨"x", 0, some 1000, none, none, 0⟩)) =
      (FetchResult.notFound, none) := by
  have h := ttl_expiry_inclusive_boundary "x" "abcdefghij" 0 1 none (by decide)
      (by decide) (by decide) (by decide) (by simp) (by decide)
  exact ⟨by simpa using h.2.1, by simpa using (h.2.2.2 1000 (by decide)).1⟩

end PastebinLite
